import Mathlib

/-!
Verification of the kromosynth-services evolution manager against its
natural-language specification.  The definitions below are shallow
embeddings of the JavaScript sources:

* `PortManager` (src/unnamed/part_003): port-range allocator;
* `AutoRunScheduler` (src/evolution-manager/src/core/auto-run-scheduler.js):
  template selection and configuration clamping;
* `EvolutionManager` (src/pm2/ecosystem.config.js): process-exit handling,
  startup reconciliation and total-generation estimation;
* `ServiceDependencyManager` (src/unnamed/part_009): service start/stop
  with port cleanup;
* `detectRequiredServices` (src/unnamed/part_000): service requirement
  detection from a run config.

JavaScript numbers are modelled as `Nat`/`Int`, JS `Map`s as association
lists, JS `Set`s as lists with membership semantics, and thrown
exceptions as `Except`.  Wall-clock timestamps (`new Date()`) are passed
as explicit parameters or omitted when no claim depends on them.
-/

namespace KromosynthServices

/-- Generic model of `Map.get`: first entry with the given key, if any. -/
def mapGet {α β : Type} [DecidableEq α] : List (α × β) → α → Option β
  | [], _ => none
  | e :: rest, k => if e.1 = k then some e.2 else mapGet rest k

@[simp] theorem mapGet_nil {α β : Type} [DecidableEq α] (k : α) :
    mapGet ([] : List (α × β)) k = none := rfl

@[simp] theorem mapGet_cons {α β : Type} [DecidableEq α] (e : α × β)
    (rest : List (α × β)) (k : α) :
    mapGet (e :: rest) k = if e.1 = k then some e.2 else mapGet rest k := rfl

/-! ## PortManager (src/unnamed/part_003) -/

/-- Each run gets 1000 ports (`this.portRangeSize = 1000`). -/
def portRangeSize : Nat := 1000

/-- The per-service port lists generated by `generateServicePorts`:
starting at offset 51 within the range, services spaced by 10 ports,
instance counts 3/3/3/3/1. -/
structure ServicePorts where
  geneVariation : List Nat
  geneRendering : List Nat
  evaluationFeatures : List Nat
  evaluationQuality : List Nat
  evaluationProjection : List Nat
  deriving DecidableEq, Repr

/-- `generateServicePorts(rangeStart)`: offsets 51, 61, 71, 81, 91. -/
def generateServicePorts (rangeStart : Nat) : ServicePorts :=
  { geneVariation := (List.range 3).map (fun i => rangeStart + 51 + i)
    geneRendering := (List.range 3).map (fun i => rangeStart + 61 + i)
    evaluationFeatures := (List.range 3).map (fun i => rangeStart + 71 + i)
    evaluationQuality := (List.range 3).map (fun i => rangeStart + 81 + i)
    evaluationProjection := (List.range 1).map (fun i => rangeStart + 91 + i) }

/-- The allocation record built by `allocatePortRange` (the
`allocatedAt` timestamp is not modelled; no claim mentions it). -/
structure Allocation where
  runId : String
  rangeStart : Nat
  rangeEnd : Nat
  services : ServicePorts
  deriving DecidableEq, Repr

/-- State of a `PortManager`: `allocatedRanges` is the `runId ->
allocation` map, `usedPorts` the set of ports currently marked used
(modelled as a list with membership semantics). -/
structure PortManager where
  allocatedRanges : List (String × Allocation)
  usedPorts : List Nat
  deriving DecidableEq, Repr

/-- The freshly constructed `PortManager`. -/
def portManagerInit : PortManager := { allocatedRanges := [], usedPorts := [] }

/-- `isRangeInUse(start, end)`: the source loops over every port of
`[start, end]` testing `usedPorts.has(port)`; equivalently, some used
port lies within the range. -/
def isRangeInUse (m : PortManager) (s e : Nat) : Bool :=
  m.usedPorts.any (fun p => decide (s ≤ p) && decide (p ≤ e))

/-- The `while` loop of `findAvailableRange`, with explicit fuel for
structural recursion.  The fuel-exhausted branch returns the same error
the overflow guard does; with fuel 17 from candidate 50000 it is never
reached, because the guard `candidate > 65000` fires first. -/
def findAvailableRangeLoop (m : PortManager) : Nat → Nat → Except String Nat
  | _, 0 => .error "Unable to allocate port range - too many concurrent runs"
  | candidate, fuel + 1 =>
    if isRangeInUse m candidate (candidate + portRangeSize - 1) then
      let c := candidate + portRangeSize
      if c > 65000 then
        .error "Unable to allocate port range - too many concurrent runs"
      else
        findAvailableRangeLoop m c fuel
    else
      .ok candidate

/-- `findAvailableRange()`: scan candidates 50000, 51000, ... for the
first free range; throw once the candidate exceeds 65000. -/
def findAvailableRange (m : PortManager) : Except String Nat :=
  findAvailableRangeLoop m 50000 17

/-- The ports `rangeStart .. rangeEnd` marked used by the allocation
loop (`for (let port = rangeStart; port <= rangeEnd; port++)`). -/
def rangePorts (s e : Nat) : List Nat :=
  (List.range (e + 1 - s)).map (fun i => s + i)

/-- `allocatePortRange(runId)`: return the cached allocation if one
exists; otherwise find a free range, build the allocation, mark its
ports used and store it.  A thrown exhaustion error leaves the state
untouched (the source throws before any mutation). -/
def allocatePortRange (m : PortManager) (runId : String) :
    Except String (Allocation × PortManager) :=
  match mapGet m.allocatedRanges runId with
  | some a => .ok (a, m)
  | none =>
    match findAvailableRange m with
    | .error e => .error e
    | .ok rangeStart =>
      let alloc : Allocation :=
        { runId := runId
          rangeStart := rangeStart
          rangeEnd := rangeStart + portRangeSize - 1
          services := generateServicePorts rangeStart }
      .ok (alloc,
        { allocatedRanges := (runId, alloc) :: m.allocatedRanges
          usedPorts := m.usedPorts ++ rangePorts alloc.rangeStart alloc.rangeEnd })

/-- `releasePortRange(runId)`: delete every port of the cached range
from `usedPorts` and drop the map entry; `false` when no allocation is
cached. -/
def releasePortRange (m : PortManager) (runId : String) : Bool × PortManager :=
  match mapGet m.allocatedRanges runId with
  | none => (false, m)
  | some a =>
    (true,
      { allocatedRanges := m.allocatedRanges.filter (fun e => e.1 ≠ runId)
        usedPorts := m.usedPorts.filter
          (fun p => ¬ (a.rangeStart ≤ p ∧ p ≤ a.rangeEnd)) })

/-- A single external call to the allocator. -/
inductive PortOp where
  | alloc (runId : String)
  | release (runId : String)
  deriving DecidableEq, Repr

/-- Effect of one call on the allocator state (a thrown allocation error
propagates to the caller and leaves the state unchanged). -/
def applyPortOp (m : PortManager) : PortOp → PortManager
  | .alloc runId =>
    match allocatePortRange m runId with
    | .ok (_, m1) => m1
    | .error _ => m
  | .release runId => (releasePortRange m runId).2

/-- Effect of a sequence of calls, oldest first. -/
def applyPortOps (m : PortManager) (ops : List PortOp) : PortManager :=
  ops.foldl applyPortOp m

/-- A state reachable from the fresh allocator by some call sequence. -/
def ReachablePM (m : PortManager) : Prop :=
  ∃ ops : List PortOp, applyPortOps portManagerInit ops = m

/-- Two allocations occupy disjoint port intervals. -/
def disjointAlloc (a b : Allocation) : Prop :=
  a.rangeEnd < b.rangeStart ∨ b.rangeEnd < a.rangeStart

/-- The interval `[s, e]` meets the interval of some live allocation. -/
def overlapsLive (m : PortManager) (s e : Nat) : Prop :=
  ∃ en ∈ m.allocatedRanges, en.2.rangeStart ≤ e ∧ s ≤ en.2.rangeEnd

/-- Internal consistency of a `PortManager` state: entries are
well-formed, keys are unique, `usedPorts` is exactly the union of the
live intervals, and live intervals are pairwise disjoint. -/
def PMInv (m : PortManager) : Prop :=
  (∀ en ∈ m.allocatedRanges,
      en.2.runId = en.1 ∧ en.2.rangeEnd = en.2.rangeStart + 999) ∧
  (m.allocatedRanges.map Prod.fst).Nodup ∧
  (∀ p : Nat, p ∈ m.usedPorts ↔
      ∃ en ∈ m.allocatedRanges, en.2.rangeStart ≤ p ∧ p ≤ en.2.rangeEnd) ∧
  m.allocatedRanges.Pairwise (fun a b => disjointAlloc a.2 b.2)

theorem disjointAlloc_symm {a b : Allocation} (h : disjointAlloc a b) :
    disjointAlloc b a := h.symm

theorem mapGet_eq_none_iff {α β : Type} [DecidableEq α]
    {l : List (α × β)} {k : α} :
    mapGet l k = none ↔ ∀ e ∈ l, e.1 ≠ k := by
  induction l with
  | nil => simp
  | cons e rest ih =>
    by_cases h : e.1 = k <;> simp [mapGet, h, ih]

theorem mem_of_mapGet_eq_some {α β : Type} [DecidableEq α]
    {l : List (α × β)} {k : α} {b : β} (h : mapGet l k = some b) :
    (k, b) ∈ l := by
  induction l with
  | nil => simp [mapGet] at h
  | cons e rest ih =>
    by_cases he : e.1 = k
    · simp [mapGet, he] at h
      subst he h
      exact List.mem_cons_self _ _
    · simp [mapGet, he] at h
      exact List.mem_cons_of_mem _ (ih h)

theorem mapGet_eq_some_of_mem_nodup {α β : Type} [DecidableEq α]
    {l : List (α × β)} {en : α × β} (hmem : en ∈ l)
    (hnd : (l.map Prod.fst).Nodup) :
    mapGet l en.1 = some en.2 := by
  induction l with
  | nil => simp at hmem
  | cons e rest ih =>
    simp only [List.map_cons, List.nodup_cons] at hnd
    rcases List.mem_cons.mp hmem with h | h
    · subst h
      simp [mapGet]
    · have hne : e.1 ≠ en.1 := by
        intro hEq
        exact hnd.1 (hEq ▸ List.mem_map_of_mem Prod.fst h)
      simp [mapGet, hne, ih h hnd.2]

theorem mapGet_filter_ne {α β : Type} [DecidableEq α]
    {l : List (α × β)} {k r : α} (h : k ≠ r) :
    mapGet (l.filter (fun e => e.1 ≠ r)) k = mapGet l k := by
  induction l with
  | nil => simp
  | cons e rest ih =>
    by_cases her : e.1 = r
    · have hek : ¬ e.1 = k := by
        rw [her]; exact fun hc => h hc.symm
      rw [List.filter_cons_of_neg (by simp [her]), ih, mapGet_cons, if_neg hek]
    · rw [List.filter_cons_of_pos (by simp [her]), mapGet_cons, mapGet_cons, ih]

theorem mem_rangePorts {s e p : Nat} (h : s ≤ e) :
    p ∈ rangePorts s e ↔ s ≤ p ∧ p ≤ e := by
  simp only [rangePorts, List.mem_map, List.mem_range]
  constructor
  · rintro ⟨i, hi, rfl⟩
    omega
  · intro hp
    exact ⟨p - s, by omega, by omega⟩

theorem isRangeInUse_eq_false_iff {m : PortManager} {s e : Nat} :
    isRangeInUse m s e = false ↔ ∀ p ∈ m.usedPorts, ¬ (s ≤ p ∧ p ≤ e) := by
  simp [isRangeInUse, List.any_eq_false]

theorem isRangeInUse_eq_true_iff {m : PortManager} {s e : Nat} :
    isRangeInUse m s e = true ↔ ∃ p ∈ m.usedPorts, s ≤ p ∧ p ≤ e := by
  simp [isRangeInUse]

/-- Under the state invariant, `isRangeInUse` over a nonempty interval
decides exactly whether the interval meets a live allocation. -/
theorem isRangeInUse_iff_overlapsLive {m : PortManager} {s e : Nat}
    (hinv : PMInv m) (hse : s ≤ e) :
    isRangeInUse m s e = true ↔ overlapsLive m s e := by
  obtain ⟨hwf, -, hused, -⟩ := hinv
  rw [isRangeInUse_eq_true_iff]
  constructor
  · rintro ⟨p, hp, hsp, hpe⟩
    obtain ⟨en, hen, h1, h2⟩ := (hused p).mp hp
    exact ⟨en, hen, le_trans h1 hpe, le_trans hsp h2⟩
  · rintro ⟨en, hen, h1, h2⟩
    obtain ⟨-, hlen⟩ := hwf en hen
    refine ⟨max s en.2.rangeStart, ?_, le_max_left _ _, ?_⟩
    · exact (hused _).mpr ⟨en, hen, le_max_right _ _, by omega⟩
    · omega

@[simp] theorem portRangeSize_eq : portRangeSize = 1000 := rfl

/-- When the scan loop succeeds, the returned candidate lies on the grid
anchored at the starting candidate, its range is free, and every grid
candidate below it is in use. -/
theorem findAvailableRangeLoop_ok {m : PortManager} {cand fuel c : Nat}
    (h : findAvailableRangeLoop m cand fuel = .ok c) :
    (∃ i, c = cand + 1000 * i) ∧
    isRangeInUse m c (c + 999) = false ∧
    ∀ i, cand + 1000 * i < c →
      isRangeInUse m (cand + 1000 * i) (cand + 1000 * i + 999) = true := by
  induction fuel generalizing cand with
  | zero => simp [findAvailableRangeLoop] at h
  | succ fuel ih =>
    rw [findAvailableRangeLoop] at h
    simp only [portRangeSize_eq] at h
    have h999 : ∀ x : Nat, x + 1000 - 1 = x + 999 := fun x => by omega
    rw [h999] at h
    by_cases hin : isRangeInUse m cand (cand + 999) = true
    · rw [if_pos hin] at h
      by_cases hov : cand + 1000 > 65000
      · simp [hov] at h
      · rw [if_neg hov] at h
        obtain ⟨⟨i, hi⟩, hfree, hmin⟩ := ih h
        refine ⟨⟨i + 1, by omega⟩, hfree, ?_⟩
        intro j hj
        match j with
        | 0 => simpa using hin
        | j + 1 =>
          have harg : cand + 1000 * (j + 1) = cand + 1000 + 1000 * j := by omega
          rw [harg]
          exact hmin j (by omega)
    · rw [if_neg hin] at h
      simp only [Except.ok.injEq] at h
      subst h
      refine ⟨⟨0, by omega⟩, by simpa using hin, ?_⟩
      intro j hj
      omega

/-- When the scan loop throws, every grid candidate at or below 65000
(from the starting candidate on) is in use — provided the fuel covers
the whole grid, which it does at the call site. -/
theorem findAvailableRangeLoop_error {m : PortManager} {cand fuel : Nat}
    {msg : String}
    (hfuel : 66000 ≤ cand + 1000 * fuel)
    (h : findAvailableRangeLoop m cand fuel = .error msg) :
    ∀ i, cand + 1000 * i ≤ 65000 →
      isRangeInUse m (cand + 1000 * i) (cand + 1000 * i + 999) = true := by
  induction fuel generalizing cand with
  | zero =>
    intro i hi
    omega
  | succ fuel ih =>
    rw [findAvailableRangeLoop] at h
    simp only [portRangeSize_eq] at h
    have h999 : ∀ x : Nat, x + 1000 - 1 = x + 999 := fun x => by omega
    rw [h999] at h
    by_cases hin : isRangeInUse m cand (cand + 999) = true
    · rw [if_pos hin] at h
      by_cases hov : cand + 1000 > 65000
      · intro i hi
        have hi0 : i = 0 := by omega
        subst hi0
        simpa using hin
      · rw [if_neg hov] at h
        have hrec := ih (by omega) h
        intro i hi
        match i with
        | 0 => simpa using hin
        | j + 1 =>
          have harg : cand + 1000 * (j + 1) = cand + 1000 + 1000 * j := by omega
          rw [harg]
          exact hrec j (by omega)
    · rw [if_neg hin] at h
      simp at h

theorem pmInv_init : PMInv portManagerInit := by
  refine ⟨?_, ?_, ?_, ?_⟩ <;> simp [portManagerInit]

/-- A successful fresh allocation preserves the invariant. -/
theorem pmInv_applyPortOp {m : PortManager} (hinv : PMInv m) (op : PortOp) :
    PMInv (applyPortOp m op) := by
  obtain ⟨hwf, hnd, hused, hdisj⟩ := hinv
  cases op with
  | alloc runId =>
    rw [applyPortOp]
    cases hget : mapGet m.allocatedRanges runId with
    | some a =>
      rw [allocatePortRange, hget]
      exact ⟨hwf, hnd, hused, hdisj⟩
    | none =>
      rw [allocatePortRange, hget]
      cases hfind : findAvailableRange m with
      | error msg => exact ⟨hwf, hnd, hused, hdisj⟩
      | ok c =>
        obtain ⟨-, hfree, -⟩ := findAvailableRangeLoop_ok hfind
        have hfree999 : isRangeInUse m c (c + 999) = false := hfree
        have hfreeP := isRangeInUse_eq_false_iff.mp hfree999
        simp only [portRangeSize_eq]
        have h999 : c + 1000 - 1 = c + 999 := by omega
        rw [h999]
        have hkey : ∀ e ∈ m.allocatedRanges, e.1 ≠ runId :=
          mapGet_eq_none_iff.mp hget
        refine ⟨?_, ?_, ?_, ?_⟩
        · intro en hen
          rcases List.mem_cons.mp hen with h | h
          · subst h; exact ⟨rfl, rfl⟩
          · exact hwf en h
        · simp only [List.map_cons, List.nodup_cons]
          exact ⟨fun hc => by
            obtain ⟨e, he, heq⟩ := List.mem_map.mp hc
            exact hkey e he heq, hnd⟩
        · intro p
          simp only [List.mem_append,
            mem_rangePorts (show c ≤ c + 999 by omega), hused]
          constructor
          · rintro (⟨en, hen, h1, h2⟩ | ⟨h1, h2⟩)
            · exact ⟨en, List.mem_cons_of_mem _ hen, h1, h2⟩
            · exact ⟨_, List.mem_cons_self _ _, h1, h2⟩
          · rintro ⟨en, hen, h1, h2⟩
            rcases List.mem_cons.mp hen with h | h
            · subst h; exact Or.inr ⟨h1, h2⟩
            · exact Or.inl ⟨en, h, h1, h2⟩
        · refine List.Pairwise.cons ?_ hdisj
          intro en hen
          obtain ⟨-, hlen⟩ := hwf en hen
          show disjointAlloc
            { runId := runId, rangeStart := c, rangeEnd := c + 999,
              services := generateServicePorts c } en.2
          simp only [disjointAlloc]
          by_contra hcon
          push_neg at hcon
          obtain ⟨hc1, hc2⟩ := hcon
          refine hfreeP (max c en.2.rangeStart) ?_ ⟨le_max_left _ _, by omega⟩
          exact (hused _).mpr ⟨en, hen, le_max_right _ _, by omega⟩
  | release runId =>
    rw [applyPortOp, releasePortRange]
    cases hget : mapGet m.allocatedRanges runId with
    | none => exact ⟨hwf, hnd, hused, hdisj⟩
    | some a =>
      have hmem : (runId, a) ∈ m.allocatedRanges := mem_of_mapGet_eq_some hget
      have hsubl : (m.allocatedRanges.filter
          (fun e => e.1 ≠ runId)).Sublist m.allocatedRanges :=
        List.filter_sublist _
      refine ⟨?_, ?_, ?_, ?_⟩
      · intro en hen
        exact hwf en (hsubl.mem hen)
      · exact List.Nodup.sublist (hsubl.map Prod.fst) hnd
      · intro p
        rw [List.mem_filter]
        constructor
        · rintro ⟨hp, hout⟩
          rw [decide_eq_true_eq] at hout
          obtain ⟨en, hen, h1, h2⟩ := (hused p).mp hp
          have henr : en.1 ≠ runId := by
            intro hEq
            have hga := mapGet_eq_some_of_mem_nodup hen hnd
            rw [hEq, hget] at hga
            have ha : a = en.2 := by simpa using hga
            rw [← ha] at h1 h2
            exact hout ⟨h1, h2⟩
          exact ⟨en, List.mem_filter.mpr ⟨hen, by simpa using henr⟩, h1, h2⟩
        · rintro ⟨en, henf, h1, h2⟩
          obtain ⟨hen, henr⟩ := List.mem_filter.mp henf
          rw [decide_eq_true_eq] at henr
          refine ⟨(hused p).mpr ⟨en, hen, h1, h2⟩, ?_⟩
          have hne : en ≠ (runId, a) := by
            intro hEq
            rw [hEq] at henr
            simp at henr
          have hdj : disjointAlloc en.2 a :=
            List.Pairwise.forall
              (fun x y h => disjointAlloc_symm h) hdisj hen hmem hne
          simp only [disjointAlloc] at hdj
          rw [decide_eq_true_eq]
          intro hcon
          omega
      · exact List.Pairwise.sublist hsubl hdisj

/-- The invariant holds after any call sequence from any invariant
state. -/
theorem pmInv_applyPortOps {m : PortManager} (hinv : PMInv m)
    (ops : List PortOp) : PMInv (applyPortOps m ops) := by
  induction ops generalizing m with
  | nil => exact hinv
  | cons op rest ih =>
    exact ih (pmInv_applyPortOp hinv op)

/-- Every reachable allocator state satisfies the invariant. -/
theorem pmInv_of_reachable {m : PortManager} (h : ReachablePM m) : PMInv m := by
  obtain ⟨ops, rfl⟩ := h
  exact pmInv_applyPortOps pmInv_init ops

/-- C1: for every sequence of `allocatePortRange` / `releasePortRange`
calls on a single `PortManager`, at every point between calls the port
intervals `[rangeStart, rangeEnd]` of any two distinct `runId`s held in
the live allocation map are disjoint. -/
theorem c1_live_allocations_disjoint (ops : List PortOp)
    (e1 e2 : String × Allocation)
    (h1 : e1 ∈ (applyPortOps portManagerInit ops).allocatedRanges)
    (h2 : e2 ∈ (applyPortOps portManagerInit ops).allocatedRanges)
    (hne : e1.1 ≠ e2.1) :
    disjointAlloc e1.2 e2.2 := by
  obtain ⟨-, -, -, hdisj⟩ := pmInv_applyPortOps pmInv_init ops
  exact List.Pairwise.forall (fun x y h => disjointAlloc_symm h) hdisj h1 h2
    (fun hEq => hne (congrArg Prod.fst hEq))

set_option maxRecDepth 100000 in
theorem c1_live_allocations_disjoint_witness :
    disjointAlloc
      { runId := "a", rangeStart := 50000, rangeEnd := 50999,
        services := generateServicePorts 50000 }
      { runId := "b", rangeStart := 51000, rangeEnd := 51999,
        services := generateServicePorts 51000 } :=
  c1_live_allocations_disjoint [PortOp.alloc "a", PortOp.alloc "b"]
    ("a", { runId := "a", rangeStart := 50000, rangeEnd := 50999,
            services := generateServicePorts 50000 })
    ("b", { runId := "b", rangeStart := 51000, rangeEnd := 51999,
            services := generateServicePorts 51000 })
    (by decide) (by decide) (by decide)

/-- C6: a fresh `allocatePortRange(runId)` returns the interval starting
at the lowest grid candidate `50000 + 1000 * i` whose interval overlaps
no live allocation; when every grid candidate not exceeding 65000 is in
use it throws an exhaustion error and allocates nothing. -/
theorem c6_lowest_free_grid_candidate (m : PortManager) (hr : ReachablePM m)
    (runId : String) (hnone : mapGet m.allocatedRanges runId = none) :
    (∀ a m1, allocatePortRange m runId = .ok (a, m1) →
      (∃ i, a.rangeStart = 50000 + 1000 * i) ∧
      ¬ overlapsLive m a.rangeStart (a.rangeStart + 999) ∧
      ∀ c, (∃ i, c = 50000 + 1000 * i) → c < a.rangeStart →
        overlapsLive m c (c + 999)) ∧
    (∀ msg, allocatePortRange m runId = .error msg →
      (∀ c, (∃ i, c = 50000 + 1000 * i) → c ≤ 65000 →
        overlapsLive m c (c + 999)) ∧
      applyPortOp m (.alloc runId) = m) := by
  have hinv := pmInv_of_reachable hr
  constructor
  · intro a m1 hok
    rw [allocatePortRange, hnone] at hok
    cases hfind : findAvailableRange m with
    | error msg =>
      rw [hfind] at hok
      exact absurd hok (by simp)
    | ok c =>
      rw [hfind] at hok
      simp only [Except.ok.injEq, Prod.mk.injEq] at hok
      obtain ⟨ha, -⟩ := hok
      rw [findAvailableRange] at hfind
      obtain ⟨⟨i, hc⟩, hfree, hmin⟩ := findAvailableRangeLoop_ok hfind
      have hstart : a.rangeStart = c := by rw [← ha]
      rw [hstart]
      refine ⟨⟨i, hc⟩, ?_, ?_⟩
      · intro hov
        have := (isRangeInUse_iff_overlapsLive hinv (by omega)).mpr hov
        rw [hfree] at this
        simp at this
      · rintro c2 ⟨j, hj⟩ hlt
        subst hj
        exact (isRangeInUse_iff_overlapsLive hinv (by omega)).mp (hmin j hlt)
  · intro msg herr
    rw [allocatePortRange, hnone] at herr
    cases hfind : findAvailableRange m with
    | ok c =>
      rw [hfind] at herr
      exact absurd herr (by simp)
    | error msg2 =>
      rw [hfind] at herr
      constructor
      · rw [findAvailableRange] at hfind
        have hall := findAvailableRangeLoop_error (by omega) hfind
        rintro c2 ⟨j, hj⟩ hle
        subst hj
        exact (isRangeInUse_iff_overlapsLive hinv (by omega)).mp (hall j hle)
      · rw [applyPortOp, allocatePortRange, hnone, hfind]

set_option maxRecDepth 100000 in
theorem c6_lowest_free_grid_candidate_witness :
    (∃ i, (50000 : Nat) = 50000 + 1000 * i) ∧
    ¬ overlapsLive portManagerInit 50000 (50000 + 999) := by
  have h := (c6_lowest_free_grid_candidate portManagerInit ⟨[], rfl⟩ "a" rfl).1
    { runId := "a", rangeStart := 50000, rangeEnd := 50999,
      services := generateServicePorts 50000 }
    { allocatedRanges :=
        [("a", { runId := "a", rangeStart := 50000, rangeEnd := 50999,
                 services := generateServicePorts 50000 })]
      usedPorts := rangePorts 50000 50999 }
    rfl
  exact ⟨h.1, h.2.1⟩

/-- Preserved cached entry: any allocator call other than
`releasePortRange(runId)` keeps the allocation cached for `runId`. -/
theorem mapGet_applyPortOp_preserved {m : PortManager} {runId : String}
    {a : Allocation} (hsome : mapGet m.allocatedRanges runId = some a)
    (op : PortOp) (hop : op ≠ .release runId) :
    mapGet (applyPortOp m op).allocatedRanges runId = some a := by
  cases op with
  | alloc r =>
    rw [applyPortOp]
    cases hget : mapGet m.allocatedRanges r with
    | some b =>
      rw [allocatePortRange, hget]
      exact hsome
    | none =>
      rw [allocatePortRange, hget]
      cases hfind : findAvailableRange m with
      | error msg => exact hsome
      | ok c =>
        have hne : r ≠ runId := by
          intro hEq
          rw [hEq, hsome] at hget
          exact Option.noConfusion hget
        simp only [mapGet_cons, if_neg hne]
        exact hsome
  | release r =>
    have hne : runId ≠ r := by
      intro hEq
      exact hop (by rw [hEq])
    rw [applyPortOp, releasePortRange]
    cases hget : mapGet m.allocatedRanges r with
    | none => exact hsome
    | some b =>
      rw [mapGet_filter_ne hne]
      exact hsome

theorem mapGet_applyPortOps_preserved {m : PortManager} {runId : String}
    {a : Allocation} (hsome : mapGet m.allocatedRanges runId = some a)
    (ops : List PortOp) (hops : PortOp.release runId ∉ ops) :
    mapGet (applyPortOps m ops).allocatedRanges runId = some a := by
  induction ops generalizing m with
  | nil => exact hsome
  | cons op rest ih =>
    have h1 : op ≠ .release runId := fun hEq => hops (hEq ▸ List.mem_cons_self _ _)
    have h2 : PortOp.release runId ∉ rest := fun hc => hops (List.mem_cons_of_mem _ hc)
    exact ih (mapGet_applyPortOp_preserved hsome op h1) h2

/-- C9: once `allocatePortRange(runId)` has succeeded, re-allocation for
the same `runId` after any further calls that do not include
`releasePortRange(runId)` returns the identical allocation (same
`rangeStart`, `rangeEnd` and per-service port lists) and leaves the
allocator state unchanged. -/
theorem c9_alloc_idempotent_until_release (m m1 : PortManager)
    (runId : String) (a : Allocation)
    (h1 : allocatePortRange m runId = .ok (a, m1))
    (ops : List PortOp) (h2 : PortOp.release runId ∉ ops) :
    allocatePortRange (applyPortOps m1 ops) runId
      = .ok (a, applyPortOps m1 ops) := by
  have hcache : mapGet m1.allocatedRanges runId = some a := by
    rw [allocatePortRange] at h1
    cases hget : mapGet m.allocatedRanges runId with
    | some b =>
      rw [hget] at h1
      simp only [Except.ok.injEq, Prod.mk.injEq] at h1
      obtain ⟨hb, hm⟩ := h1
      rw [← hm, hget, hb]
    | none =>
      rw [hget] at h1
      cases hfind : findAvailableRange m with
      | error msg =>
        rw [hfind] at h1
        exact absurd h1 (by simp)
      | ok c =>
        rw [hfind] at h1
        simp only [Except.ok.injEq, Prod.mk.injEq] at h1
        obtain ⟨ha, hm⟩ := h1
        rw [← hm, mapGet_cons, if_pos rfl, ha]
  have hpres := mapGet_applyPortOps_preserved hcache ops h2
  rw [allocatePortRange, hpres]

set_option maxRecDepth 100000 in
theorem c9_alloc_idempotent_until_release_witness :
    allocatePortRange
      (applyPortOps
        { allocatedRanges :=
            [("a", { runId := "a", rangeStart := 50000, rangeEnd := 50999,
                     services := generateServicePorts 50000 })]
          usedPorts := rangePorts 50000 50999 }
        [PortOp.alloc "b"]) "a"
      = .ok
          ({ runId := "a", rangeStart := 50000, rangeEnd := 50999,
             services := generateServicePorts 50000 },
           applyPortOps
             { allocatedRanges :=
                 [("a", { runId := "a", rangeStart := 50000, rangeEnd := 50999,
                          services := generateServicePorts 50000 })]
               usedPorts := rangePorts 50000 50999 }
             [PortOp.alloc "b"]) :=
  c9_alloc_idempotent_until_release portManagerInit
    { allocatedRanges :=
        [("a", { runId := "a", rangeStart := 50000, rangeEnd := 50999,
                 services := generateServicePorts 50000 })]
      usedPorts := rangePorts 50000 50999 }
    "a"
    { runId := "a", rangeStart := 50000, rangeEnd := 50999,
      services := generateServicePorts 50000 }
    rfl [PortOp.alloc "b"] (by decide)

/-! ## AutoRunScheduler
(src/evolution-manager/src/core/auto-run-scheduler.js) -/

/-- Run lifecycle status as used by the evolution manager. -/
inductive RunStatus where
  | starting
  | running
  | paused
  | stopped
  | terminated
  | failed
  deriving DecidableEq, Repr

/-- The fields of a scheduler template entry that template selection
reads. -/
structure SchedTemplate where
  templateName : String
  ecosystemVariant : String
  enabled : Bool
  priority : Int
  currentRunId : Option String
  deriving DecidableEq, Repr

/-- `getEnabledTemplates()`: filter the configured template list to the
enabled ones (missing config modelled as the empty list). -/
def getEnabledTemplates (templates : List SchedTemplate) : List SchedTemplate :=
  templates.filter (fun t => t.enabled)

/-- The availability test inside `selectNextTemplate`: a template is
available when it has no `currentRunId`, or when that run is missing
from the run map, or when the run status is `stopped`, `terminated` or
`failed`. -/
def templateHasFreeSlot (runs : List (String × RunStatus))
    (t : SchedTemplate) : Bool :=
  match t.currentRunId with
  | none => true
  | some rid =>
    match mapGet runs rid with
    | none => true
    | some st => st = .stopped ∨ st = .terminated ∨ st = .failed

/-- The `availableTemplates` list computed by `selectNextTemplate`. -/
def availableTemplates (templates : List SchedTemplate)
    (runs : List (String × RunStatus)) : List SchedTemplate :=
  (getEnabledTemplates templates).filter (templateHasFreeSlot runs)

/-- First element with minimal priority: what `sort` by
`a.priority - b.priority` followed by `[0]` produces (stable sort). -/
def firstByPriority (t : SchedTemplate) (rest : List SchedTemplate) :
    SchedTemplate :=
  rest.foldl (fun best x => if x.priority < best.priority then x else best) t

/-- `selectNextTemplate()` in `priority` scheduling mode: `null` when no
enabled template exists or none is available, otherwise the
highest-priority (lowest number, earliest on ties) available template.
The round-robin branch sorts by `lastRunAt` instead; the claims under
verification concern only the availability filter, which is shared by
both modes. -/
def selectNextTemplate (templates : List SchedTemplate)
    (runs : List (String × RunStatus)) : Option SchedTemplate :=
  let enabledTemplates := getEnabledTemplates templates
  if enabledTemplates.isEmpty then none
  else
    match availableTemplates templates runs with
    | [] => none
    | t :: rest => some (firstByPriority t rest)

theorem firstByPriority_mem (t : SchedTemplate) (rest : List SchedTemplate) :
    firstByPriority t rest ∈ t :: rest := by
  induction rest generalizing t with
  | nil => simp [firstByPriority]
  | cons x xs ih =>
    have hstep := ih (if x.priority < t.priority then x else t)
    rw [firstByPriority] at hstep ⊢
    rw [List.foldl_cons]
    rcases List.mem_cons.mp hstep with h1 | h1
    · rw [h1]
      by_cases h : x.priority < t.priority <;> simp [h]
    · exact List.mem_cons_of_mem _ (List.mem_cons_of_mem _ h1)

theorem templateHasFreeSlot_eq_true_iff {runs : List (String × RunStatus)}
    {t : SchedTemplate} :
    templateHasFreeSlot runs t = true ↔
      t.currentRunId = none ∨
      ∃ rid, t.currentRunId = some rid ∧
        (mapGet runs rid = none ∨
         ∃ st, mapGet runs rid = some st ∧
           (st = .stopped ∨ st = .terminated ∨ st = .failed)) := by
  cases hc : t.currentRunId with
  | none => simp [templateHasFreeSlot, hc]
  | some rid =>
    cases hg : mapGet runs rid with
    | none => simp [templateHasFreeSlot, hc, hg]
    | some st => simp [templateHasFreeSlot, hc, hg]

/-- C2 counterexample: a template whose current run is `paused` is not
treated as having a free slot — it is filtered out and never selected,
contradicting the claim that `paused` frees the slot. -/
theorem c2_paused_occupies_slot_counterexample :
    templateHasFreeSlot [("r", RunStatus.paused)]
      { templateName := "t", ecosystemVariant := "default", enabled := true,
        priority := 1, currentRunId := some "r" } = false ∧
    selectNextTemplate
      [{ templateName := "t", ecosystemVariant := "default", enabled := true,
         priority := 1, currentRunId := some "r" }]
      [("r", RunStatus.paused)] = none := by
  decide

/-- C2 (amended): a template is eligible for selection exactly when it
is enabled and its `currentRunId` is absent, refers to no run in the run
map, or refers to a run whose status is `stopped`, `terminated` or
`failed`; a run with status `running` or `paused` occupies the slot.
The selected template always comes from this eligible list. -/
theorem c2_slot_free_iff_not_running_or_paused
    (templates : List SchedTemplate) (runs : List (String × RunStatus))
    (t : SchedTemplate) :
    (t ∈ availableTemplates templates runs ↔
      t ∈ templates ∧ t.enabled = true ∧
      (t.currentRunId = none ∨
       ∃ rid, t.currentRunId = some rid ∧
         (mapGet runs rid = none ∨
          ∃ st, mapGet runs rid = some st ∧
            (st = .stopped ∨ st = .terminated ∨ st = .failed)))) ∧
    (∀ t2, selectNextTemplate templates runs = some t2 →
      t2 ∈ availableTemplates templates runs) := by
  constructor
  · rw [availableTemplates, getEnabledTemplates, List.mem_filter,
      List.mem_filter, templateHasFreeSlot_eq_true_iff]
    simp [and_assoc]
  · intro t2 hsel
    rw [selectNextTemplate] at hsel
    by_cases hemp : (getEnabledTemplates templates).isEmpty
    · rw [if_pos hemp] at hsel
      exact Option.noConfusion hsel
    · rw [if_neg hemp] at hsel
      cases havail : availableTemplates templates runs with
      | nil =>
        rw [havail] at hsel
        exact Option.noConfusion hsel
      | cons hd rest =>
        rw [havail] at hsel
        simp only [Option.some.injEq] at hsel
        rw [← hsel]
        exact firstByPriority_mem hd rest

set_option maxRecDepth 10000 in
theorem c2_slot_free_iff_not_running_or_paused_witness :
    ({ templateName := "t", ecosystemVariant := "default", enabled := true,
       priority := 1, currentRunId := some "r" } : SchedTemplate) ∈
      availableTemplates
        [{ templateName := "t", ecosystemVariant := "default", enabled := true,
           priority := 1, currentRunId := some "r" }]
        [("r", RunStatus.stopped)] := by
  have h := (c2_slot_free_iff_not_running_or_paused
    [{ templateName := "t", ecosystemVariant := "default", enabled := true,
       priority := 1, currentRunId := some "r" }]
    [("r", RunStatus.stopped)]
    { templateName := "t", ecosystemVariant := "default", enabled := true,
      priority := 1, currentRunId := some "r" }).1
  exact h.mpr (by decide)

/-- The scheduler configuration fields touched by `updateConfig` /
`setMaxConcurrentRuns`. -/
structure AutoRunConfig where
  enabled : Bool
  maxConcurrentRuns : Int
  schedulingMode : String
  defaultTimeSliceMinutes : Int
  pauseOnFailure : Bool
  maxFailuresBeforePause : Int
  deriving DecidableEq, Repr

/-- `setMaxConcurrentRuns(count)`:
`this.config.maxConcurrentRuns = Math.max(1, Math.min(5, count))`. -/
def setMaxConcurrentRuns (cfg : AutoRunConfig) (count : Int) : AutoRunConfig :=
  { cfg with maxConcurrentRuns := max 1 (min 5 count) }

/-- The `updates` object accepted by `updateConfig`; `none` models an
absent (`undefined`) key. -/
structure ConfigUpdates where
  maxConcurrentRuns : Option Int
  schedulingMode : Option String
  defaultTimeSliceMinutes : Option Int
  pauseOnFailure : Option Bool
  maxFailuresBeforePause : Option Int
  deriving Repr

/-- `updateConfig(updates)`: apply each present key in source order,
clamping `maxConcurrentRuns` to `[1, 5]` and the two other numeric
fields to a minimum of 1. -/
def updateConfig (cfg : AutoRunConfig) (updates : ConfigUpdates) :
    AutoRunConfig :=
  let cfg1 := match updates.maxConcurrentRuns with
    | some c => { cfg with maxConcurrentRuns := max 1 (min 5 c) }
    | none => cfg
  let cfg2 := match updates.schedulingMode with
    | some mo => { cfg1 with schedulingMode := mo }
    | none => cfg1
  let cfg3 := match updates.defaultTimeSliceMinutes with
    | some d => { cfg2 with defaultTimeSliceMinutes := max 1 d }
    | none => cfg2
  let cfg4 := match updates.pauseOnFailure with
    | some p => { cfg3 with pauseOnFailure := p }
    | none => cfg3
  match updates.maxFailuresBeforePause with
    | some mf => { cfg4 with maxFailuresBeforePause := max 1 mf }
    | none => cfg4

theorem updateConfig_maxConcurrentRuns (cfg : AutoRunConfig)
    (updates : ConfigUpdates) :
    (updateConfig cfg updates).maxConcurrentRuns =
      match updates.maxConcurrentRuns with
      | some c => max 1 (min 5 c)
      | none => cfg.maxConcurrentRuns := by
  rw [updateConfig]
  cases updates.maxConcurrentRuns <;>
    cases updates.schedulingMode <;>
    cases updates.defaultTimeSliceMinutes <;>
    cases updates.pauseOnFailure <;>
    cases updates.maxFailuresBeforePause <;>
    rfl

/-- C10: both `setMaxConcurrentRuns(count)` and
`updateConfig({maxConcurrentRuns: count})` store a value clamped to
`[1, 5]`: the stored limit is always between 1 and 5, and a requested
count already in that interval is stored unchanged. -/
theorem c10_max_concurrent_runs_clamped (cfg : AutoRunConfig) (count : Int)
    (updates : ConfigUpdates)
    (hupd : updates.maxConcurrentRuns = some count) :
    (1 ≤ (setMaxConcurrentRuns cfg count).maxConcurrentRuns ∧
     (setMaxConcurrentRuns cfg count).maxConcurrentRuns ≤ 5 ∧
     (1 ≤ count → count ≤ 5 →
       (setMaxConcurrentRuns cfg count).maxConcurrentRuns = count)) ∧
    (1 ≤ (updateConfig cfg updates).maxConcurrentRuns ∧
     (updateConfig cfg updates).maxConcurrentRuns ≤ 5 ∧
     (1 ≤ count → count ≤ 5 →
       (updateConfig cfg updates).maxConcurrentRuns = count)) := by
  have hset : (setMaxConcurrentRuns cfg count).maxConcurrentRuns
      = max 1 (min 5 count) := rfl
  have hupd2 : (updateConfig cfg updates).maxConcurrentRuns
      = max 1 (min 5 count) := by
    rw [updateConfig_maxConcurrentRuns, hupd]
  rw [hset, hupd2]
  omega

theorem c10_max_concurrent_runs_clamped_witness :
    (1 ≤ (setMaxConcurrentRuns
        { enabled := false, maxConcurrentRuns := 2,
          schedulingMode := "priority", defaultTimeSliceMinutes := 60,
          pauseOnFailure := true, maxFailuresBeforePause := 3 }
        99).maxConcurrentRuns ∧
     (setMaxConcurrentRuns
        { enabled := false, maxConcurrentRuns := 2,
          schedulingMode := "priority", defaultTimeSliceMinutes := 60,
          pauseOnFailure := true, maxFailuresBeforePause := 3 }
        99).maxConcurrentRuns ≤ 5 ∧
     (1 ≤ (99 : Int) → (99 : Int) ≤ 5 →
       (setMaxConcurrentRuns
          { enabled := false, maxConcurrentRuns := 2,
            schedulingMode := "priority", defaultTimeSliceMinutes := 60,
            pauseOnFailure := true, maxFailuresBeforePause := 3 }
          99).maxConcurrentRuns = 99)) ∧
    (1 ≤ (updateConfig
        { enabled := false, maxConcurrentRuns := 2,
          schedulingMode := "priority", defaultTimeSliceMinutes := 60,
          pauseOnFailure := true, maxFailuresBeforePause := 3 }
        { maxConcurrentRuns := some 99, schedulingMode := none,
          defaultTimeSliceMinutes := none, pauseOnFailure := none,
          maxFailuresBeforePause := none }).maxConcurrentRuns ∧
     (updateConfig
        { enabled := false, maxConcurrentRuns := 2,
          schedulingMode := "priority", defaultTimeSliceMinutes := 60,
          pauseOnFailure := true, maxFailuresBeforePause := 3 }
        { maxConcurrentRuns := some 99, schedulingMode := none,
          defaultTimeSliceMinutes := none, pauseOnFailure := none,
          maxFailuresBeforePause := none }).maxConcurrentRuns ≤ 5 ∧
     (1 ≤ (99 : Int) → (99 : Int) ≤ 5 →
       (updateConfig
          { enabled := false, maxConcurrentRuns := 2,
            schedulingMode := "priority", defaultTimeSliceMinutes := 60,
            pauseOnFailure := true, maxFailuresBeforePause := 3 }
          { maxConcurrentRuns := some 99, schedulingMode := none,
            defaultTimeSliceMinutes := none, pauseOnFailure := none,
            maxFailuresBeforePause := none }).maxConcurrentRuns = 99)) :=
  c10_max_concurrent_runs_clamped
    { enabled := false, maxConcurrentRuns := 2,
      schedulingMode := "priority", defaultTimeSliceMinutes := 60,
      pauseOnFailure := true, maxFailuresBeforePause := 3 }
    99
    { maxConcurrentRuns := some 99, schedulingMode := none,
      defaultTimeSliceMinutes := none, pauseOnFailure := none,
      maxFailuresBeforePause := none }
    rfl

/-! ## EvolutionManager (src/pm2/ecosystem.config.js) -/

/-- The fields of a `Run` record read and written by `handleProcessEvent`
and `loadRunState`.  Timestamps are abstract `Nat` instants. -/
structure Run where
  status : RunStatus
  pausedByScheduler : Bool
  exitCode : Option Int
  stoppedAt : Option Nat
  terminatedAt : Option Nat
  failedAt : Option Nat
  pm2Name : String
  deriving DecidableEq, Repr

/-- The `exit` branch of `handleProcessEvent` for a run that exists in
the run map: a `paused` run ignores the event; exit code 0 marks the run
`terminated`; any other exit code marks it `failed` and records the
code.  (The surrounding guards — event name, process-name prefix, run
lookup — and the persistence/sync/notification side effects are outside
the per-run state change modelled here.) -/
def handleExitEvent (run : Run) (exitCode : Int) (now : Nat) : Run :=
  if run.status = .paused then run
  else if exitCode = 0 then
    { run with status := .terminated, terminatedAt := some now }
  else
    { run with status := .failed, failedAt := some now,
               exitCode := some exitCode }

/-- C4: on compute-process exit, a `paused` run is left unchanged; an
exit code of 0 sets the status to `terminated`; a non-zero exit code
sets the status to `failed` and records the exit code on the run
record. -/
theorem c4_exit_classification (run : Run) (exitCode : Int) (now : Nat) :
    (run.status = .paused → handleExitEvent run exitCode now = run) ∧
    (run.status ≠ .paused → exitCode = 0 →
      (handleExitEvent run exitCode now).status = .terminated) ∧
    (run.status ≠ .paused → exitCode ≠ 0 →
      (handleExitEvent run exitCode now).status = .failed ∧
      (handleExitEvent run exitCode now).exitCode = some exitCode) := by
  refine ⟨?_, ?_, ?_⟩
  · intro hp
    rw [handleExitEvent, if_pos hp]
  · intro hp hz
    rw [handleExitEvent, if_neg hp, if_pos hz]
  · intro hp hz
    rw [handleExitEvent, if_neg hp, if_neg hz]
    exact ⟨rfl, rfl⟩

theorem c4_exit_classification_witness :
    handleExitEvent
      { status := RunStatus.paused, pausedByScheduler := true,
        exitCode := none, stoppedAt := none, terminatedAt := none,
        failedAt := none, pm2Name := "kromosynth-evolution-r1" } 1 7
      = { status := RunStatus.paused, pausedByScheduler := true,
          exitCode := none, stoppedAt := none, terminatedAt := none,
          failedAt := none, pm2Name := "kromosynth-evolution-r1" } ∧
    (handleExitEvent
      { status := RunStatus.running, pausedByScheduler := false,
        exitCode := none, stoppedAt := none, terminatedAt := none,
        failedAt := none, pm2Name := "kromosynth-evolution-r2" } 0 7).status
      = RunStatus.terminated ∧
    (handleExitEvent
      { status := RunStatus.running, pausedByScheduler := false,
        exitCode := none, stoppedAt := none, terminatedAt := none,
        failedAt := none, pm2Name := "kromosynth-evolution-r2" } 3 7).status
      = RunStatus.failed ∧
    (handleExitEvent
      { status := RunStatus.running, pausedByScheduler := false,
        exitCode := none, stoppedAt := none, terminatedAt := none,
        failedAt := none, pm2Name := "kromosynth-evolution-r2" } 3 7).exitCode
      = some 3 :=
  ⟨(c4_exit_classification
      { status := RunStatus.paused, pausedByScheduler := true,
        exitCode := none, stoppedAt := none, terminatedAt := none,
        failedAt := none, pm2Name := "kromosynth-evolution-r1" } 1 7).1 rfl,
   (c4_exit_classification
      { status := RunStatus.running, pausedByScheduler := false,
        exitCode := none, stoppedAt := none, terminatedAt := none,
        failedAt := none, pm2Name := "kromosynth-evolution-r2" } 0 7).2.1
     (by decide) rfl,
   ((c4_exit_classification
      { status := RunStatus.running, pausedByScheduler := false,
        exitCode := none, stoppedAt := none, terminatedAt := none,
        failedAt := none, pm2Name := "kromosynth-evolution-r2" } 3 7).2.2
     (by decide) (by decide)).1,
   ((c4_exit_classification
      { status := RunStatus.running, pausedByScheduler := false,
        exitCode := none, stoppedAt := none, terminatedAt := none,
        failedAt := none, pm2Name := "kromosynth-evolution-r2" } 3 7).2.2
     (by decide) (by decide)).2⟩

/-- PM2 process status as read during reconciliation. -/
inductive Pm2Status where
  | online
  | errored
  | other
  deriving DecidableEq, Repr

/-- The per-run body of the `loadRunState` reconciliation loop.  With a
live PM2 process the status is restored from the process state (the
pid/cpu/memory copies are not modelled).  With no process, a stored
`running` run becomes `stopped` with `stoppedAt` defaulted to the
reconciliation time — unless `pausedByScheduler` is set, in which case
the run becomes `paused`.  Any other stored status is kept as is. -/
def reconcileRun (run : Run) (proc : Option Pm2Status) (now : Nat) : Run :=
  match proc with
  | some st =>
    { run with status :=
        if st = .online then .running
        else if st = .errored then .failed
        else .stopped }
  | none =>
    if run.status = .running then
      if run.pausedByScheduler = false then
        { run with status := .stopped,
                   stoppedAt := some (run.stoppedAt.getD now) }
      else
        { run with status := .paused }
    else run

/-- The reconciliation pass of `loadRunState` over the persisted run
map, looking each run's `pm2Name` up in the live process table.  (The
`totalGenerations` re-derivation in the same loop reads working-config
files from disk; its pure core is `estimateTotalGenerations` below.) -/
def loadRunStateReconcile (entries : List (String × Run))
    (pm2ByName : List (String × Pm2Status)) (now : Nat) :
    List (String × Run) :=
  entries.map (fun e => (e.1, reconcileRun e.2 (mapGet pm2ByName e.2.pm2Name) now))

/-- C5 counterexample: a stored `running` run whose process is gone but
which was marked `pausedByScheduler` is reconciled to `paused`, not
`stopped`, and its `stoppedAt` stays unset — contradicting the claim
that every such run becomes `stopped`. -/
theorem c5_reconcile_counterexample :
    (loadRunStateReconcile
      [("r1", { status := RunStatus.running, pausedByScheduler := true,
                exitCode := none, stoppedAt := none, terminatedAt := none,
                failedAt := none, pm2Name := "kromosynth-evolution-r1" })]
      [] 7).map (fun e => (e.2.status, e.2.stoppedAt))
      = [(RunStatus.paused, none)] := by
  decide

/-- C5 (amended): during startup reconciliation, every stored run with
persisted status `running`, no live process under its `pm2Name`, and
`pausedByScheduler` unset becomes `stopped` with `stoppedAt` defaulted
to the reconciliation time; a `pausedByScheduler` run becomes `paused`
instead. -/
theorem c5_dead_running_run_reconciled (entries : List (String × Run))
    (pm2ByName : List (String × Pm2Status)) (now : Nat)
    (rid : String) (run : Run)
    (hmem : (rid, run) ∈ entries)
    (hrun : run.status = .running)
    (hdead : mapGet pm2ByName run.pm2Name = none)
    (hnp : run.pausedByScheduler = false) :
    (rid, { run with status := .stopped,
                     stoppedAt := some (run.stoppedAt.getD now) })
      ∈ loadRunStateReconcile entries pm2ByName now := by
  rw [loadRunStateReconcile]
  have hrec : reconcileRun run (mapGet pm2ByName run.pm2Name) now
      = { run with status := .stopped,
                   stoppedAt := some (run.stoppedAt.getD now) } := by
    rw [hdead, reconcileRun, if_pos hrun, if_pos hnp]
  rw [← hrec]
  exact List.mem_map_of_mem _ hmem

theorem c5_dead_running_run_reconciled_witness :
    ("r1", { status := RunStatus.stopped, pausedByScheduler := false,
             exitCode := none, stoppedAt := some 7, terminatedAt := none,
             failedAt := none, pm2Name := "kromosynth-evolution-r1" })
      ∈ loadRunStateReconcile
          [("r1", { status := RunStatus.running, pausedByScheduler := false,
                    exitCode := none, stoppedAt := none, terminatedAt := none,
                    failedAt := none,
                    pm2Name := "kromosynth-evolution-r1" })]
          [] 7 :=
  c5_dead_running_run_reconciled
    [("r1", { status := RunStatus.running, pausedByScheduler := false,
              exitCode := none, stoppedAt := none, terminatedAt := none,
              failedAt := none, pm2Name := "kromosynth-evolution-r1" })]
    [] 7 "r1"
    { status := RunStatus.running, pausedByScheduler := false,
      exitCode := none, stoppedAt := none, terminatedAt := none,
      failedAt := none, pm2Name := "kromosynth-evolution-r1" }
    (by decide) rfl rfl rfl

/-! ## Total-generation estimation (src/pm2/ecosystem.config.js) -/

structure TerminationCondition where
  numberOfEvals : Option Nat
  deriving DecidableEq, Repr

structure EvolutionRunConfig where
  terminationCondition : Option TerminationCondition
  batchSize : Option Nat
  deriving DecidableEq, Repr

structure TerminationCriteria where
  maxGenerations : Option Nat
  deriving DecidableEq, Repr

structure Hyperparameters where
  maxGenerations : Option Nat
  terminationCriteria : Option TerminationCriteria
  deriving DecidableEq, Repr

structure TemplateConfig where
  evolutionRunConfig : Option EvolutionRunConfig
  hyperparameters : Option Hyperparameters
  deriving DecidableEq, Repr

/-- JS truthiness of an optional number: an absent field and the value 0
are both falsy. -/
def truthyNat : Option Nat → Option Nat
  | some n => if n = 0 then none else some n
  | none => none

/-- `Math.ceil(n / b)` for positive integers `n`, `b`. -/
def mathCeilDiv (n b : Nat) : Nat := (n + b - 1) / b

/-- `_estimateTotalGenerations(config)`: with a compute-run config that
carries truthy `terminationCondition.numberOfEvals` and `batchSize`,
`Math.ceil(numberOfEvals / batchSize)`; otherwise fall back to the
explicit `hyperparameters.maxGenerations`, then to
`hyperparameters.terminationCriteria.maxGenerations`, then `null`.
Without a compute-run config the result is `null` immediately. -/
def estimateTotalGenerations (config : TemplateConfig) : Option Nat :=
  match config.evolutionRunConfig with
  | none => none
  | some rc =>
    match truthyNat (rc.terminationCondition.bind
        TerminationCondition.numberOfEvals),
      truthyNat rc.batchSize with
    | some n, some b => some (mathCeilDiv n b)
    | _, _ =>
      match truthyNat (config.hyperparameters.bind
          Hyperparameters.maxGenerations) with
      | some m => some m
      | none =>
        truthyNat ((config.hyperparameters.bind
          Hyperparameters.terminationCriteria).bind
          TerminationCriteria.maxGenerations)

/-- The `progress` block stored on a freshly started run. -/
structure Progress where
  generation : Nat
  totalGenerations : Option Nat
  deriving DecidableEq, Repr

/-- The initial `progress` object built in `startRun`. -/
def mkInitialProgress (config : TemplateConfig) : Progress :=
  { generation := 0, totalGenerations := estimateTotalGenerations config }

/-- C7: with truthy numeric `terminationCondition.numberOfEvals` and
`batchSize` on the compute-run config, the initial
`progress.totalGenerations` is the ceiling of `numberOfEvals /
batchSize` (characterised order-theoretically); when either field is
absent it falls back to the explicit `maxGenerations` of the
hyperparameters, or of their `terminationCriteria`. -/
theorem c7_initial_total_generations (config : TemplateConfig)
    (rc : EvolutionRunConfig) (hrc : config.evolutionRunConfig = some rc) :
    (∀ n b,
      rc.terminationCondition.bind TerminationCondition.numberOfEvals = some n →
      rc.batchSize = some b → 0 < n → 0 < b →
      ∃ r, (mkInitialProgress config).totalGenerations = some r ∧
        n ≤ b * r ∧ b * r < n + b) ∧
    ((rc.terminationCondition.bind TerminationCondition.numberOfEvals = none ∨
      rc.batchSize = none) →
      (∀ m, config.hyperparameters.bind Hyperparameters.maxGenerations = some m →
        0 < m → (mkInitialProgress config).totalGenerations = some m) ∧
      (truthyNat (config.hyperparameters.bind Hyperparameters.maxGenerations)
          = none →
        (mkInitialProgress config).totalGenerations =
          truthyNat ((config.hyperparameters.bind
            Hyperparameters.terminationCriteria).bind
            TerminationCriteria.maxGenerations))) := by
  constructor
  · intro n b hn hb hnpos hbpos
    have hest : estimateTotalGenerations config = some (mathCeilDiv n b) := by
      simp only [estimateTotalGenerations, hrc, hn, hb, truthyNat]
      rw [if_neg (by omega : ¬ n = 0), if_neg (by omega : ¬ b = 0)]
    refine ⟨mathCeilDiv n b, ?_, ?_, ?_⟩
    · rw [mkInitialProgress]
      exact hest
    · have hb2 := (Nat.div_lt_iff_lt_mul hbpos).mp
        (Nat.lt_succ_self ((n + b - 1) / b))
      rw [Nat.succ_mul] at hb2
      have hb1 : (n + b - 1) / b * b ≤ n + b - 1 :=
        Nat.div_mul_le_self (n + b - 1) b
      rw [mathCeilDiv, Nat.mul_comm]
      generalize (n + b - 1) / b * b = x at hb1 hb2
      omega
    · have hb1 : (n + b - 1) / b * b ≤ n + b - 1 :=
        Nat.div_mul_le_self (n + b - 1) b
      rw [mathCeilDiv, Nat.mul_comm]
      generalize (n + b - 1) / b * b = x at hb1
      omega
  · intro habs
    have hest : estimateTotalGenerations config =
        match truthyNat (config.hyperparameters.bind
            Hyperparameters.maxGenerations) with
        | some m => some m
        | none =>
          truthyNat ((config.hyperparameters.bind
            Hyperparameters.terminationCriteria).bind
            TerminationCriteria.maxGenerations) := by
      rcases habs with h | h
      · simp only [estimateTotalGenerations, hrc, h]
        rfl
      · simp only [estimateTotalGenerations, hrc, h]
        cases truthyNat (rc.terminationCondition.bind
          TerminationCondition.numberOfEvals) <;> rfl
    constructor
    · intro m hm hmpos
      rw [mkInitialProgress, hest, hm, truthyNat, if_neg (by omega)]
    · intro hnone
      rw [mkInitialProgress, hest, hnone]

theorem c7_initial_total_generations_witness :
    ∃ r, (mkInitialProgress
      { evolutionRunConfig :=
          some { terminationCondition := some { numberOfEvals := some 100 },
                 batchSize := some 32 }
        hyperparameters := none }).totalGenerations = some r ∧
      100 ≤ 32 * r ∧ 32 * r < 100 + 32 :=
  (c7_initial_total_generations
    { evolutionRunConfig :=
        some { terminationCondition := some { numberOfEvals := some 100 },
               batchSize := some 32 }
      hyperparameters := none }
    { terminationCondition := some { numberOfEvals := some 100 },
      batchSize := some 32 }
    rfl).1 100 32 rfl rfl (by decide) (by decide)

/-! ## detectRequiredServices (src/unnamed/part_000) -/

/-- `needle` occurs as a contiguous sublist of `haystack`. -/
def listContains {α : Type} [BEq α] : List α → List α → Bool
  | needle, [] => needle.isEmpty
  | needle, b :: bs => needle.isPrefixOf (b :: bs) || listContains needle bs

/-- `a?.includes(b)`: false when the receiver is absent, otherwise
substring containment. -/
def optIncludes (o : Option String) (sub : String) : Bool :=
  match o with
  | none => false
  | some s => listContains sub.data s.data

/-- The fields of a `classConfigurations[j]` entry read by
`detectRequiredServices`. -/
structure ClassConfiguration where
  featureExtractionType : Option String
  featureExtractionEndpoint : Option String
  zScoreNormalisationReferenceFeaturesPaths : List String
  qualityEvaluationEndpoint : Option String
  projectionEndpoint : Option String
  shouldRetrainProjection : Bool
  deriving DecidableEq, Repr

structure Classifier where
  classConfigurations : List ClassConfiguration
  deriving DecidableEq, Repr

structure CmaMAEConfig where
  enabled : Bool
  deriving DecidableEq, Repr

/-- The service-requirement flags computed by `detectRequiredServices`.
The always-true `variation`/`render` fields and the port / instance /
dimension bookkeeping of the result object carry no requirement logic
and are not modelled. -/
structure ServiceRequirements where
  clapService : Bool
  genericFeatures : Bool
  refFeatures : Bool
  qdhfProjection : Bool
  umapProjection : Bool
  qualityMusicality : Bool
  pyribs : Bool
  projectionRetraining : Bool
  deriving DecidableEq, Repr

/-- The flag fields of the `requirements` literal before any check. -/
def initialRequirements : ServiceRequirements :=
  { clapService := false, genericFeatures := false, refFeatures := false,
    qdhfProjection := false, umapProjection := false,
    qualityMusicality := false, pyribs := false,
    projectionRetraining := false }

/-- The inputs of `detectRequiredServices` that feed the requirement
flags. -/
structure RunConfigServices where
  cmaMAEConfig : Option CmaMAEConfig
  classifiers : List Classifier
  deriving DecidableEq, Repr

/-- One iteration of the inner `for (const config of configs)` loop:
the `clap` / `vggish` else-if chain, the reference-feature check, the
`qdhf` / `umap`-family else-if chain, and the musicality check. -/
def applyClassConfiguration (req : ServiceRequirements)
    (config : ClassConfiguration) : ServiceRequirements :=
  let req1 :=
    if config.featureExtractionType = some "clap" then
      { req with clapService := true }
    else if config.featureExtractionType = some "vggish" ∨
        optIncludes config.featureExtractionEndpoint "/vggish" then
      { req with genericFeatures := true }
    else req
  let req2 :=
    if 0 < config.zScoreNormalisationReferenceFeaturesPaths.length ∨
        optIncludes config.qualityEvaluationEndpoint "reference_embedding" then
      { req1 with refFeatures := true }
    else req1
  let req3 :=
    if optIncludes config.projectionEndpoint "qdhf" then
      { req2 with qdhfProjection := true,
                  projectionRetraining := config.shouldRetrainProjection }
    else if optIncludes config.projectionEndpoint "umap" ∨
        optIncludes config.projectionEndpoint "pca" ∨
        optIncludes config.projectionEndpoint "quantised" then
      { req2 with umapProjection := true }
    else req2
  if optIncludes config.qualityEvaluationEndpoint "musicality" then
    { req3 with qualityMusicality := true }
  else req3

/-- `detectRequiredServices(runConfig)` restricted to the requirement
flags: the CMA-MAE check followed by the classifier loop. -/
def detectRequiredServices (runConfig : RunConfigServices) :
    ServiceRequirements :=
  let req :=
    if (match runConfig.cmaMAEConfig with
        | some c => c.enabled
        | none => false) then
      { initialRequirements with pyribs := true }
    else initialRequirements
  runConfig.classifiers.foldl
    (fun r cl => cl.classConfigurations.foldl applyClassConfiguration r) req

/-- A single loop iteration never clears `genericFeatures`. -/
theorem applyClassConfiguration_generic_mono {req : ServiceRequirements}
    (config : ClassConfiguration) (h : req.genericFeatures = true) :
    (applyClassConfiguration req config).genericFeatures = true := by
  rw [applyClassConfiguration]
  split_ifs <;> simp_all

/-- An iteration on a non-`clap` configuration whose type is `vggish` or
whose endpoint contains `/vggish` sets `genericFeatures`. -/
theorem applyClassConfiguration_sets_generic {req : ServiceRequirements}
    {config : ClassConfiguration}
    (h3 : config.featureExtractionType = some "vggish" ∨
      optIncludes config.featureExtractionEndpoint "/vggish" = true)
    (h4 : config.featureExtractionType ≠ some "clap") :
    (applyClassConfiguration req config).genericFeatures = true := by
  rw [applyClassConfiguration]
  have hcond : (config.featureExtractionType = some "vggish" ∨
      optIncludes config.featureExtractionEndpoint "/vggish") := by
    rcases h3 with h | h
    · exact Or.inl h
    · exact Or.inr (by rw [h])
  split_ifs <;> simp_all

theorem foldl_classConfigs_generic_mono {req : ServiceRequirements}
    (l : List ClassConfiguration) (h : req.genericFeatures = true) :
    (l.foldl applyClassConfiguration req).genericFeatures = true := by
  induction l generalizing req with
  | nil => exact h
  | cons x xs ih =>
    exact ih (applyClassConfiguration_generic_mono x h)

theorem foldl_classConfigs_sets_generic {req : ServiceRequirements}
    {l : List ClassConfiguration} {config : ClassConfiguration}
    (hmem : config ∈ l)
    (h3 : config.featureExtractionType = some "vggish" ∨
      optIncludes config.featureExtractionEndpoint "/vggish" = true)
    (h4 : config.featureExtractionType ≠ some "clap") :
    (l.foldl applyClassConfiguration req).genericFeatures = true := by
  induction l generalizing req with
  | nil => simp at hmem
  | cons x xs ih =>
    rcases List.mem_cons.mp hmem with h | h
    · subst h
      exact foldl_classConfigs_generic_mono xs
        (applyClassConfiguration_sets_generic h3 h4)
    · exact ih h

theorem foldl_classifiers_generic_mono {req : ServiceRequirements}
    (cls : List Classifier) (h : req.genericFeatures = true) :
    (cls.foldl
      (fun r cl => cl.classConfigurations.foldl applyClassConfiguration r)
      req).genericFeatures = true := by
  induction cls generalizing req with
  | nil => exact h
  | cons x xs ih =>
    exact ih (foldl_classConfigs_generic_mono _ h)

/-- C8 counterexample: a classConfiguration with
`featureExtractionType = "clap"` and an endpoint containing `/vggish`
satisfies the claim's premise, yet `genericFeatures` stays `false`
(the `clap` branch of the else-if chain wins); so the flag is not set
"regardless of the other fields". -/
theorem c8_clap_shadows_vggish_counterexample :
    optIncludes (some "http://host/vggish") "/vggish" = true ∧
    (detectRequiredServices
      { cmaMAEConfig := none
        classifiers :=
          [{ classConfigurations :=
              [{ featureExtractionType := some "clap"
                 featureExtractionEndpoint := some "http://host/vggish"
                 zScoreNormalisationReferenceFeaturesPaths := []
                 qualityEvaluationEndpoint := none
                 projectionEndpoint := none
                 shouldRetrainProjection := false }] }] }).genericFeatures
      = false ∧
    (detectRequiredServices
      { cmaMAEConfig := none
        classifiers :=
          [{ classConfigurations :=
              [{ featureExtractionType := some "clap"
                 featureExtractionEndpoint := some "http://host/vggish"
                 zScoreNormalisationReferenceFeaturesPaths := []
                 qualityEvaluationEndpoint := none
                 projectionEndpoint := none
                 shouldRetrainProjection := false }] }] }).clapService
      = true := by
  decide

/-- C8 (amended): for every run config containing some
`classifiers[i].classConfigurations[j]` whose `featureExtractionType`
is `"vggish"` or whose `featureExtractionEndpoint` contains `/vggish`,
and whose `featureExtractionType` is not `"clap"`,
`detectRequiredServices` sets `genericFeatures`; a configuration typed
`"clap"` takes the `clap` branch of the else-if chain instead. -/
theorem c8_vggish_requires_generic_features
    (runConfig : RunConfigServices) (cl : Classifier)
    (config : ClassConfiguration)
    (h1 : cl ∈ runConfig.classifiers)
    (h2 : config ∈ cl.classConfigurations)
    (h3 : config.featureExtractionType = some "vggish" ∨
      optIncludes config.featureExtractionEndpoint "/vggish" = true)
    (h4 : config.featureExtractionType ≠ some "clap") :
    (detectRequiredServices runConfig).genericFeatures = true := by
  rw [detectRequiredServices]
  revert h1
  generalize (if (match runConfig.cmaMAEConfig with
    | some c => c.enabled
    | none => false) = true then
      { initialRequirements with pyribs := true }
    else initialRequirements) = req
  induction runConfig.classifiers generalizing req with
  | nil => intro h1; simp at h1
  | cons x xs ih =>
    intro h1
    rcases List.mem_cons.mp h1 with h | h
    · subst h
      exact foldl_classifiers_generic_mono xs
        (foldl_classConfigs_sets_generic h2 h3 h4)
    · exact ih (x.classConfigurations.foldl applyClassConfiguration req) h

theorem c8_vggish_requires_generic_features_witness :
    (detectRequiredServices
      { cmaMAEConfig := none
        classifiers :=
          [{ classConfigurations :=
              [{ featureExtractionType := some "vggish"
                 featureExtractionEndpoint := none
                 zScoreNormalisationReferenceFeaturesPaths := []
                 qualityEvaluationEndpoint := none
                 projectionEndpoint := none
                 shouldRetrainProjection := false }] }] }).genericFeatures
      = true :=
  c8_vggish_requires_generic_features
    { cmaMAEConfig := none
      classifiers :=
        [{ classConfigurations :=
            [{ featureExtractionType := some "vggish"
               featureExtractionEndpoint := none
               zScoreNormalisationReferenceFeaturesPaths := []
               qualityEvaluationEndpoint := none
               projectionEndpoint := none
               shouldRetrainProjection := false }] }] }
    { classConfigurations :=
        [{ featureExtractionType := some "vggish"
           featureExtractionEndpoint := none
           zScoreNormalisationReferenceFeaturesPaths := []
           qualityEvaluationEndpoint := none
           projectionEndpoint := none
           shouldRetrainProjection := false }] }
    { featureExtractionType := some "vggish"
      featureExtractionEndpoint := none
      zScoreNormalisationReferenceFeaturesPaths := []
      qualityEvaluationEndpoint := none
      projectionEndpoint := none
      shouldRetrainProjection := false }
    (by decide) (by decide) (Or.inl rfl) (by decide)

/-! ## ServiceDependencyManager (src/unnamed/part_009) -/

/-- Outcome of one PM2 app start (`'started'` or `'failed'`). -/
structure ServiceStartResult where
  name : String
  started : Bool
  deriving DecidableEq, Repr

/-- The `serviceInfo` record stored in `runServices` at step 6 of
`startServicesForRun` (paths/urls/timestamps omitted; no claim reads
them). -/
structure ServiceInfo where
  runId : String
  templateName : String
  ecosystemVariant : String
  portAllocation : Allocation
  services : List ServiceStartResult
  deriving DecidableEq, Repr

/-- State owned by a `ServiceDependencyManager`: its `PortManager` and
the `runId -> serviceInfo` tracking map. -/
structure SDMState where
  portManager : PortManager
  runServices : List (String × ServiceInfo)
  deriving DecidableEq, Repr

/-- External outcomes seen by `startServicesForRun`: whether an
ecosystem template is found for the template/variant, the per-service
PM2 start results, and whether the health check succeeds.  The
config-generation and file-write steps between template load and
service registration fail the same way the template lookup does (the
thrown error reaches the same catch before `runServices.set`). -/
structure StartEnv where
  templateFound : Bool
  serviceResults : List ServiceStartResult
  healthOk : Bool
  deriving DecidableEq, Repr

/-- `stopServicesForRun(runId)`: with no tracked `serviceInfo` the
method logs and returns at once; otherwise it stops the tracked
services, releases the port allocation, removes the temporary ecosystem
file and drops the tracking entry. -/
def stopServicesForRun (st : SDMState) (runId : String) : SDMState :=
  match mapGet st.runServices runId with
  | none => st
  | some _ =>
    { portManager := (releasePortRange st.portManager runId).2
      runServices := st.runServices.filter (fun e => e.1 ≠ runId) }

/-- The `try` body of `startServicesForRun`: allocate ports (step 1),
load the ecosystem template (step 2, throwing when none is found),
start services and register the `serviceInfo` under the run id (step
6), then run the health check (step 7, throwing on timeout).  Each
thrown error is returned together with the state as mutated up to the
throw. -/
def startServicesForRunBody (env : StartEnv) (st : SDMState)
    (runId templateName ecosystemVariant : String) :
    Except String ServiceInfo × SDMState :=
  match allocatePortRange st.portManager runId with
  | .error e => (.error e, st)
  | .ok (portAllocation, pm1) =>
    let st1 : SDMState := { st with portManager := pm1 }
    if env.templateFound = false then
      (.error ("No ecosystem template found for " ++ templateName ++ ":"
        ++ ecosystemVariant), st1)
    else
      let serviceInfo : ServiceInfo :=
        { runId := runId, templateName := templateName
          ecosystemVariant := ecosystemVariant
          portAllocation := portAllocation
          services := env.serviceResults }
      let st2 : SDMState :=
        { st1 with runServices := (runId, serviceInfo) :: st1.runServices }
      if env.healthOk = false then
        (.error ("Services for run " ++ runId
          ++ " did not become ready"), st2)
      else
        (.ok serviceInfo, st2)

/-- `startServicesForRun(runId, templateName, ecosystemVariant)`: the
body wrapped in the `catch` that calls `stopServicesForRun(runId)` and
rethrows the original error. -/
def startServicesForRun (env : StartEnv) (st : SDMState)
    (runId templateName ecosystemVariant : String) :
    Except String ServiceInfo × SDMState :=
  match startServicesForRunBody env st runId templateName ecosystemVariant with
  | (.ok info, st1) => (.ok info, st1)
  | (.error e, st1) => (.error e, stopServicesForRun st1 runId)

set_option maxRecDepth 100000 in
/-- C3: the claim says every failure of `startServicesForRun` releases
the port allocation before the error is surfaced.  The code violates
this: when no ecosystem template is found (a failure after step 1 but
before the `runServices.set` of step 6), the catch calls
`stopServicesForRun`, which returns early because no `serviceInfo` is
tracked — the allocation for the run stays live.  A post-registration
failure (health check) does release it, so the leak is specific to
pre-registration failures. -/
theorem c3_port_leak_when_template_missing :
    (startServicesForRun
      { templateFound := false, serviceResults := [], healthOk := true }
      { portManager := portManagerInit, runServices := [] }
      "run1" "tmpl" "default").1
      = .error "No ecosystem template found for tmpl:default" ∧
    mapGet (startServicesForRun
      { templateFound := false, serviceResults := [], healthOk := true }
      { portManager := portManagerInit, runServices := [] }
      "run1" "tmpl" "default").2.portManager.allocatedRanges "run1"
      = some { runId := "run1", rangeStart := 50000, rangeEnd := 50999,
               services := generateServicePorts 50000 } ∧
    (startServicesForRun
      { templateFound := true, serviceResults := [], healthOk := false }
      { portManager := portManagerInit, runServices := [] }
      "run1" "tmpl" "default").1
      = .error "Services for run run1 did not become ready" ∧
    mapGet (startServicesForRun
      { templateFound := true, serviceResults := [], healthOk := false }
      { portManager := portManagerInit, runServices := [] }
      "run1" "tmpl" "default").2.portManager.allocatedRanges "run1"
      = none := by
  refine ⟨rfl, ?_, rfl, ?_⟩ <;> decide

end KromosynthServices
